import Mathlib

/-!
# Verification of the github-md worker (src/src/index.ts)

A shallow embedding of the stale-while-revalidate (SWR) cache layer, the
request handler, the file-listing filter and the HTML sanitization
configuration of the github-md Cloudflare worker, together with proofs of
the specification claims.

Conventions of the embedding:
* Times are milliseconds since epoch, modelled as `Nat` (`Date.now()`).
* Network effects are modelled by passing the result of the upstream fetch
  (`Option` of the parsed body; `none` models a non-success upstream
  response) as an explicit argument; `ctx.waitUntil(...)` background tasks
  are returned as an explicit task list and applied to the state by
  `runTask`/`runTasks`.
* `caches.default` is modelled as an association list from URL strings to
  stored responses; `put` prepends (overwrite semantics via first match),
  `match` takes the first entry with the given key.
* JavaScript `Number(x)` applied to a header is modelled by an
  `Option Nat`: `none` plays the role of `NaN` (comparisons with `<` are
  `false`), `some n` a finite value.  `Number(null || 0) = 0` and
  `Number("" || 0) = 0` are mirrored exactly.
-/

/-- `let REVALIDATE_AFTER_MS = 5 * 60 * 1000` (src/src/index.ts:12). -/
def REVALIDATE_AFTER_MS : Nat := 5 * 60 * 1000

/-- `let STALE_FOR_SECONDS = 2 * 24 * 60 * 60` (src/src/index.ts:13). -/
def STALE_FOR_SECONDS : Nat := 2 * 24 * 60 * 60

/-- `type ApiData = { attributes: unknown; html: string }`.  The dynamic
front-matter value is kept opaque as a string. -/
structure ApiData where
  attributes : String
  html : String
deriving Repr, DecidableEq

/-- `type CachedFile = { path: string; sha: string }`. -/
structure CachedFile where
  path : String
  sha : String
deriving Repr, DecidableEq

/-- `type CachedFiles = { sha: string; files: CachedFile[] }`. -/
structure CachedFiles where
  sha : String
  files : List CachedFile
deriving Repr, DecidableEq

/-- A value stored in the key-value SWR cache: either a markdown document
(`json-swr…` keys) or a file listing (`files…` keys). -/
inductive KvValue where
  | md (d : ApiData)
  | files (f : CachedFiles)
deriving Repr, DecidableEq

/-- The response `writeToCache` stores under `kv://<key>`: a JSON body
(already parsed back, JSON round-tripping being the identity), the
`Stale-At` header as written, and the `max-age` seconds of the
`Cache-Control` header (the edge cache evicts the entry `maxAge` seconds
after the write, which is the entry's expiry). -/
structure StoredResponse where
  body : KvValue
  staleAtHeader : Option String
  maxAge : Nat
deriving Repr, DecidableEq

/-- JavaScript `String.prototype.toLowerCase` (the headers and paths in
play are ASCII, where it lower-cases the letters `A`-`Z`). -/
def jsToLower (s : String) : String :=
  ⟨s.data.map Char.toLower⟩

/-- JavaScript `Number(s)` on the strings that occur as `Stale-At`
headers: a non-empty all-digit string parses to the number it denotes
(such strings are what `toFixed(0)` of a non-negative integer produces);
anything else is `NaN`, modelled `none`. -/
def jsToNat? (s : String) : Option Nat :=
  if s.data ≠ [] ∧ s.data.all Char.isDigit then
    some (s.data.foldl (fun n c => n * 10 + (c.toNat - 48)) 0)
  else none

/-- JavaScript `Number(h || 0)` for a nullable header string `h`:
`null` and `""` are falsy and give `0`; otherwise the string is parsed,
a non-numeric string giving `NaN` (modelled `none`). -/
def jsNumberOfHeader : Option String → Option Nat
  | none => some 0
  | some s => if s = "" then some 0 else jsToNat? s

/-- JavaScript `a < b` where `a` may be `NaN`: any comparison with `NaN`
is `false`. -/
def jsLt : Option Nat → Nat → Bool
  | none, _ => false
  | some a, b => a < b

/-- Request headers relevant to `shouldSkipCache`. -/
structure ReqHeaders where
  cacheControl : Option String
  pragma : Option String
deriving Repr, DecidableEq

/-- Does `pat` occur as a contiguous sublist of `l`? -/
def listContainsSub (l pat : List Char) : Bool :=
  pat.isPrefixOf l ||
    match l with
    | [] => false
    | _ :: t => listContainsSub t pat

/-- JavaScript `String.prototype.includes`: `s` contains `pat` as a
substring. -/
def strIncludes (s pat : String) : Bool :=
  listContainsSub s.data pat.data

/-- `shouldSkipCache` (src/src/index.ts:466-473): true iff the
`Cache-Control` or `pragma` request header contains `no-cache`
case-insensitively. -/
def shouldSkipCache (h : ReqHeaders) : Bool :=
  (match h.cacheControl with
   | some s => strIncludes (jsToLower s) "no-cache"
   | none => false) ||
  (match h.pragma with
   | some s => strIncludes (jsToLower s) "no-cache"
   | none => false)

/-- An association-list cache (`caches.default`), most recent write first. -/
abbrev KvCache := List (String × StoredResponse)

/-- `caches.default.match` on a `kv://` key: first stored response for it. -/
def kvMatch (c : KvCache) (key : String) : Option StoredResponse :=
  (List.find? (fun p => p.1 = key) c).map (·.2)

/-- `caches.default.put` on a `kv://` key: overwrite by prepending. -/
def kvPut (c : KvCache) (key : String) (v : StoredResponse) : KvCache :=
  (key, v) :: c

/-- `readFromCache` (src/src/index.ts:255-267): look the key up; absent
gives `null`; otherwise return the parsed JSON body together with
`staleAt = Number(match.headers.get("Stale-At") || 0)`. -/
structure CachedRead where
  data : KvValue
  staleAt : Option Nat
deriving Repr, DecidableEq

def readFromCache (c : KvCache) (key : String) : Option CachedRead :=
  (kvMatch c key).map fun m =>
    { data := m.body, staleAt := jsNumberOfHeader m.staleAtHeader }

/-- `writeToCache` (src/src/index.ts:269-281): store the value with
`Cache-Control: public, max-age=<STALE_FOR_SECONDS>, immutable` and
`Stale-At: (Date.now() + REVALIDATE_AFTER_MS).toFixed(0)` (the decimal
representation of that integer). -/
def writeToCache (now : Nat) (v : KvValue) : StoredResponse :=
  { body := v
    staleAtHeader := some (Nat.repr (now + REVALIDATE_AFTER_MS))
    maxAge := STALE_FOR_SECONDS }

/-- The instant the stored entry is evicted from the cache (its
`max-age` counted from the time of the write, in milliseconds). -/
def expiresAt (writtenAt : Nat) (r : StoredResponse) : Nat :=
  writtenAt + 1000 * r.maxAge

/-- The staleness deadline the stored entry will report on a read. -/
def storedStaleAt (r : StoredResponse) : Option Nat :=
  jsNumberOfHeader r.staleAtHeader

/-- Body of a worker response: a literal JSON string (errors), or the
JSON encoding of a cached value (`JSON.stringify(data)`). -/
inductive RespBody where
  | json (s : String)
  | ofKv (v : KvValue)
deriving Repr, DecidableEq

/-- An HTTP response produced by the worker. -/
structure WResponse where
  status : Nat
  body : RespBody
  cacheControl : Option String
deriving Repr, DecidableEq

/-- `JSON.stringify({ error: "Not found" })`. -/
def notFoundBody : String := "\x7b\"error\":\"Not found\"\x7d"

/-- The 404 response of `renderMarkdown`/`renderFiles`. -/
def notFoundResponse : WResponse :=
  { status := 404, body := .json notFoundBody, cacheControl := none }

/-- `Cache-Control: public, max-age=${REVALIDATE_AFTER_MS / 1000}, immutable`. -/
def swrCacheControl : String :=
  "public, max-age=" ++ Nat.repr (REVALIDATE_AFTER_MS / 1000) ++ ", immutable"

/-- The 200 response of `renderMarkdown`/`renderFiles` for payload `v`. -/
def okResponse (v : KvValue) : WResponse :=
  { status := 200, body := .ofKv v, cacheControl := some swrCacheControl }

/-- A background task registered with `ctx.waitUntil`. -/
inductive BgTask where
  | kvRegen (key : String)
  | kvWrite (key : String) (v : KvValue)
  | edgePut (url : String) (r : WResponse)
deriving Repr, DecidableEq

/-- `renderMarkdown` (src/src/index.ts:210-253).  `produce` is the result
of `createNewCacheEntry(url)` (`none` for a non-success upstream fetch).
Returns the response and the `ctx.waitUntil` tasks it registered. -/
def renderMarkdown (hdrs : ReqHeaders) (pathname : String) (kv : KvCache)
    (now : Nat) (produce : Option ApiData) : WResponse × List BgTask :=
  let key := "json-swr" ++ pathname
  let cached := if shouldSkipCache hdrs then none else readFromCache kv key
  match cached with
  | some c =>
      (okResponse c.data, if jsLt c.staleAt now then [.kvRegen key] else [])
  | none =>
      match produce with
      | some d => (okResponse (.md d), [.kvWrite key (.md d)])
      | none => (notFoundResponse, [])

/-- `renderFiles` (src/src/index.ts:161-208): same SWR skeleton with key
`files<pathname>` and `createNewFilesCacheEntry` as the producer. -/
def renderFiles (hdrs : ReqHeaders) (pathname : String) (kv : KvCache)
    (now : Nat) (produce : Option CachedFiles) : WResponse × List BgTask :=
  let key := "files" ++ pathname
  let cached := if shouldSkipCache hdrs then none else readFromCache kv key
  match cached with
  | some c =>
      (okResponse c.data, if jsLt c.staleAt now then [.kvRegen key] else [])
  | none =>
      match produce with
      | some f => (okResponse (.files f), [.kvWrite key (.files f)])
      | none => (notFoundResponse, [])

/-- The edge response cache (`caches.default` keyed by `request.url`). -/
abbrev EdgeCache := List (String × WResponse)

def edgeMatch (c : EdgeCache) (url : String) : Option WResponse :=
  (List.find? (fun p => p.1 = url) c).map (·.2)

def edgePutCache (c : EdgeCache) (url : String) (r : WResponse) : EdgeCache :=
  (url, r) :: c

/-- The observable worker state: the edge response cache and the
key-value SWR cache (both live in `caches.default`; they are kept apart
here because their keys never collide: `kv://` versus request URLs). -/
structure WState where
  edge : EdgeCache
  kv : KvCache

/-- `url.pathname.split("/").filter((s) => s !== "")`. -/
def pathSegments (pathname : String) : List String :=
  ((pathname.data.splitOn '/').filter (fun s => s ≠ [])).map String.mk

/-- `handleFetch` (src/src/index.ts:50-89) on the two API routes (the `/`
docs page and `/_demo/` routes are presentation glue outside the modelled
core): serve from the edge cache unless the request carries a no-cache
directive; otherwise dispatch on the number of path segments (exactly 3
gives the file listing, anything else the markdown document), then register
an edge-cache put of a clone of the response.  The early return of a cached
response registers no task. -/
def handleFetch (hdrs : ReqHeaders) (pathname : String) (st : WState)
    (now : Nat) (produceMd : Option ApiData)
    (produceFiles : Option CachedFiles) : WResponse × List BgTask :=
  match (if shouldSkipCache hdrs then none else edgeMatch st.edge pathname) with
  | some r => (r, [])
  | none =>
      let rt :=
        if (pathSegments pathname).length = 3 then
          renderFiles hdrs pathname st.kv now produceFiles
        else
          renderMarkdown hdrs pathname st.kv now produceMd
      (rt.1, rt.2 ++ [.edgePut pathname rt.1])

/-- Run one background task against the state.  `regenResult` is the
outcome of the `createNewCacheEntry` / `createNewFilesCacheEntry` call a
`kvRegen` task performs (`none` for a failed upstream fetch), and `now`
the time at which the task runs; `toCache && writeToCache(key, toCache)`
writes only on success. -/
def runTask (regenResult : Option KvValue) (now : Nat) (st : WState) :
    BgTask → WState
  | .kvRegen key =>
      match regenResult with
      | none => st
      | some v => { st with kv := kvPut st.kv key (writeToCache now v) }
  | .kvWrite key v => { st with kv := kvPut st.kv key (writeToCache now v) }
  | .edgePut url r => { st with edge := edgePutCache st.edge url r }

def runTasks (regenResult : Option KvValue) (now : Nat) (st : WState)
    (ts : List BgTask) : WState :=
  ts.foldl (runTask regenResult now) st

/-- An entry of the GitHub recursive tree listing
(`content.tree` in `createNewFilesCacheEntry`, src/src/index.ts:313-320). -/
structure TreeItem where
  path : String
  type : String
  sha : String
deriving Repr, DecidableEq

/-- The parsed JSON body of a successful tree fetch. -/
structure TreeResponse where
  sha : String
  tree : List TreeItem
deriving Repr, DecidableEq

/-- JavaScript `String.prototype.endsWith`. -/
def strEndsWith (s suffixStr : String) : Bool :=
  suffixStr.data.isSuffixOf s.data

/-- The `content.tree.reduce` of `createNewFilesCacheEntry`
(src/src/index.ts:322-330): push `{path, sha}` for every item of type
`blob` whose lower-cased path ends in `.md`, in upstream order. -/
def filesOfTree (tree : List TreeItem) : List CachedFile :=
  tree.foldl
    (fun acc item =>
      if item.type = "blob" && strEndsWith (jsToLower item.path) ".md" then
        acc ++ [{ path := item.path, sha := item.sha }]
      else acc)
    []

/-- `createNewFilesCacheEntry` (src/src/index.ts:298-336) given the
upstream fetch outcome (`none` models `!contentResponse.ok`): on success,
the commit sha together with the filtered markdown files. -/
def createNewFilesCacheEntry (resp : Option TreeResponse) : Option CachedFiles :=
  resp.map fun c => { sha := c.sha, files := filesOfTree c.tree }

/-- `allowedTags` of the `sanitize(html, …)` call in `parseMarkdown`
(src/src/index.ts:362-434), transcribed in source order; note that `img`
is present (between `blockquote` and `dd`) and that `main` occurs twice,
as in the source. -/
def allowedTags : List String :=
  ["address", "article", "aside", "footer", "header",
   "h1", "h2", "h3", "h4", "h5", "h6",
   "hgroup", "main", "nav", "section", "blockquote", "img",
   "dd", "div", "dl", "dt", "figcaption", "figure", "hr", "li", "main",
   "ol", "p", "pre", "ul", "a", "abbr", "b", "bdi", "bdo", "br", "cite",
   "code", "data", "dfn", "em", "i", "kbd", "mark", "q", "rb", "rp",
   "rt", "rtc", "ruby", "s", "samp", "small", "span", "strong", "sub",
   "sup", "time", "u", "var", "wbr", "caption", "col", "colgroup",
   "table", "tbody", "td", "tfoot", "th", "thead", "tr"]

/-- `allowedAttributes` (src/src/index.ts:436-442): `class`/`id`/`style`
on every tag, plus `href`/`name`/`target` on `a` and the image attributes
on `img`. -/
def allowedAttributesFor (tag : String) : List String :=
  ["class", "id", "style"] ++
  (if tag = "a" then ["href", "name", "target"]
   else if tag = "img" then
     ["src", "srcset", "alt", "title", "width", "height", "loading"]
   else [])

/-- `allowedSchemes: ["http", "https", "ftp", "mailto", "tel"]`
(src/src/index.ts:456). -/
def allowedSchemes : List String := ["http", "https", "ftp", "mailto", "tel"]

/-- `allowedSchemesAppliedToAttributes: ["href", "src", "cite"]`
(src/src/index.ts:458). -/
def schemeCheckedAttributes : List String := ["href", "src", "cite"]

/-- Modelled from the spec: the scheme of a URL-bearing attribute value.
The text before the first `:` is the scheme when one exists and contains
no `/`; a value without one (including protocol-relative `//…`, which
`allowProtocolRelative: true` permits) has no scheme. -/
def schemeOf (v : String) : Option String :=
  let pre := v.data.takeWhile (fun c => c ≠ ':')
  if pre.length = v.data.length then none
  else if pre.contains '/' then none
  else some (jsToLower ⟨pre⟩)

/-- Modelled from the spec: a URL value passes the scheme allow-list iff
it is scheme-less or its scheme is one of `allowedSchemes`. -/
def schemeAllowed (v : String) : Bool :=
  match schemeOf v with
  | none => true
  | some s => allowedSchemes.contains s

/-- Modelled from the spec: an attribute survives sanitization iff its
name is allowed for the tag and, when it is a URL-bearing attribute, its
value passes the scheme allow-list. -/
def attrAllowed (tag n v : String) : Bool :=
  (allowedAttributesFor tag).contains n &&
  (!(schemeCheckedAttributes.contains n) || schemeAllowed v)

def filterAttrs (tag : String) (attrs : List (String × String)) :
    List (String × String) :=
  attrs.filter fun p => attrAllowed tag p.1 p.2

/-- An HTML fragment: text, or an element with attributes and children. -/
inductive Html where
  | text (s : String)
  | elem (tag : String) (attrs : List (String × String)) (children : List Html)
deriving Repr

mutual

/-- Modelled from the spec: the `sanitize-html` dependency (library code,
not part of this repository's sources) in `disallowedTagsMode: "discard"`
with the configuration of `parseMarkdown` above: an element whose tag is
in `allowedTags` is kept with its attributes filtered and its children
sanitized; a disallowed element is dropped (not escaped-and-shown), its
sanitized children taking its place; text is kept. -/
def sanitizeNode : Html → List Html
  | .text s => [.text s]
  | .elem tag attrs children =>
      if allowedTags.contains tag then
        [.elem tag (filterAttrs tag attrs) (sanitizeList children)]
      else
        sanitizeList children

def sanitizeList : List Html → List Html
  | [] => []
  | h :: t => sanitizeNode h ++ sanitizeList t

end

mutual

/-- Does a fragment contain an element with the given tag, at any depth? -/
def hasTagNode (t : String) : Html → Bool
  | .text _ => false
  | .elem tag _ children => tag == t || hasTagList t children

def hasTagList (t : String) : List Html → Bool
  | [] => false
  | h :: rest => hasTagNode t h || hasTagList t rest

end

mutual

/-- No element of the fragment carries an `href` attribute whose value
uses the `javascript:` scheme, at any depth. -/
def jsHrefFreeNode : Html → Bool
  | .text _ => true
  | .elem _ attrs children =>
      attrs.all (fun p => !(p.1 == "href" && schemeOf p.2 == some "javascript"))
        && jsHrefFreeList children

def jsHrefFreeList : List Html → Bool
  | [] => true
  | h :: rest => jsHrefFreeNode h && jsHrefFreeList rest

end

theorem hasTagList_append (t : String) (a b : List Html) :
    hasTagList t (a ++ b) = (hasTagList t a || hasTagList t b) := by
  induction a with
  | nil => simp [hasTagList]
  | cons x xs ih => simp [hasTagList, ih, Bool.or_assoc]

theorem jsHrefFreeList_append (a b : List Html) :
    jsHrefFreeList (a ++ b) = (jsHrefFreeList a && jsHrefFreeList b) := by
  induction a with
  | nil => simp [jsHrefFreeList]
  | cons x xs ih => simp [jsHrefFreeList, ih, Bool.and_assoc]

theorem attrAllowed_href_not_js (tag v : String)
    (h : attrAllowed tag "href" v = true) :
    (schemeOf v == some "javascript") = false := by
  unfold attrAllowed at h
  have hc : schemeCheckedAttributes.contains "href" = true := by decide
  simp only [hc, Bool.not_true, Bool.false_or, Bool.and_eq_true] at h
  have h2 : schemeAllowed v = true := h.2
  unfold schemeAllowed at h2
  cases hs : schemeOf v with
  | none => simp
  | some s =>
      rw [hs] at h2
      cases hbe : (some s == some "javascript") with
      | false => rfl
      | true =>
          exfalso
          have hseq : s = "javascript" := by simpa using hbe
          subst hseq
          simp at h2
          exact absurd h2 (by decide)

theorem filterAttrs_href_safe (tag : String) (attrs : List (String × String)) :
    (filterAttrs tag attrs).all
      (fun p => !(p.1 == "href" && schemeOf p.2 == some "javascript")) = true := by
  unfold filterAttrs
  rw [List.all_eq_true]
  intro p hp
  have hall : attrAllowed tag p.1 p.2 = true := (List.mem_filter.mp hp).2
  cases hhref : (p.1 == "href") with
  | false => simp [hhref]
  | true =>
      have : p.1 = "href" := by simpa using hhref
      rw [this] at hall
      simp [hhref, attrAllowed_href_not_js tag p.2 hall]

mutual

theorem sanitizeNode_hasTag_eq_false (t : String)
    (ht : allowedTags.contains t = false) :
    ∀ h : Html, hasTagList t (sanitizeNode h) = false
  | .text s => by simp [sanitizeNode, hasTagList, hasTagNode]
  | .elem tag attrs children => by
      rw [sanitizeNode]
      by_cases hc : allowedTags.contains tag = true
      · rw [if_pos hc]
        have hne : (tag == t) = false := by
          cases hbe : (tag == t) with
          | false => rfl
          | true =>
              exfalso
              have : tag = t := by simpa using hbe
              subst this
              rw [hc] at ht
              simp at ht
        simp [hasTagList, hasTagNode, hne,
          sanitizeList_hasTag_eq_false t ht children]
      · rw [if_neg hc]
        exact sanitizeList_hasTag_eq_false t ht children

theorem sanitizeList_hasTag_eq_false (t : String)
    (ht : allowedTags.contains t = false) :
    ∀ l : List Html, hasTagList t (sanitizeList l) = false
  | [] => by simp [sanitizeList, hasTagList]
  | x :: xs => by
      rw [sanitizeList, hasTagList_append]
      simp [sanitizeNode_hasTag_eq_false t ht x,
        sanitizeList_hasTag_eq_false t ht xs]

end

mutual

theorem sanitizeNode_jsHrefFree :
    ∀ h : Html, jsHrefFreeList (sanitizeNode h) = true
  | .text s => by simp [sanitizeNode, jsHrefFreeList, jsHrefFreeNode]
  | .elem tag attrs children => by
      rw [sanitizeNode]
      by_cases hc : allowedTags.contains tag = true
      · rw [if_pos hc]
        simp only [jsHrefFreeList, jsHrefFreeNode, Bool.and_true]
        rw [sanitizeList_jsHrefFree children, filterAttrs_href_safe tag attrs]
        rfl
      · rw [if_neg hc]
        exact sanitizeList_jsHrefFree children

theorem sanitizeList_jsHrefFree :
    ∀ l : List Html, jsHrefFreeList (sanitizeList l) = true
  | [] => rfl
  | x :: xs => by
      rw [sanitizeList, jsHrefFreeList_append, sanitizeNode_jsHrefFree x,
          sanitizeList_jsHrefFree xs]
      rfl

end

/-- C1, counterexample: the claim that the sanitizer's allowed-tag list
omits `img`, so that sanitized HTML never contains an `<img>` element, is
false on the code: `img` is in `allowedTags` (src/src/index.ts:379), and
sanitizing a fragment consisting of an `img` element with an allowed
`src` keeps it verbatim. -/
theorem C1_img_allowed_counterexample :
    allowedTags.contains "img" = true ∧
    filterAttrs "img" [("src", "https://example.com/a.png")] =
      [("src", "https://example.com/a.png")] ∧
    hasTagList "img"
      (sanitizeNode (.elem "img" [("src", "https://example.com/a.png")] [])) =
      true := by
  refine ⟨by decide, by decide, ?_⟩
  simp [sanitizeNode, sanitizeList, hasTagList, hasTagNode]

/-- C1, amended: `img` IS in the sanitizer's allowed-tag list, so
sanitization keeps every `<img>` element (with its attributes filtered to
the allowed image attributes, URL-bearing ones checked against the scheme
allow-list, and its children sanitized): images do render by default. -/
theorem C1_img_is_allowed :
    allowedTags.contains "img" = true ∧
    ∀ (attrs : List (String × String)) (children : List Html),
      sanitizeNode (.elem "img" attrs children) =
        [.elem "img" (filterAttrs "img" attrs) (sanitizeList children)] := by
  refine ⟨by decide, ?_⟩
  intro attrs children
  rw [sanitizeNode, if_pos (by decide : allowedTags.contains "img" = true)]

/-- C9: for every HTML fragment, the sanitized output contains no
`<script>` element at any depth (`script` is not in `allowedTags`), and
no element of the output carries an `href` whose value uses the
`javascript:` scheme (`javascript` is not in `allowedSchemes`). -/
theorem C9_sanitize_no_script_no_js_links (h : Html) :
    hasTagList "script" (sanitizeNode h) = false ∧
    jsHrefFreeList (sanitizeNode h) = true :=
  ⟨sanitizeNode_hasTag_eq_false "script" (by decide) h,
   sanitizeNode_jsHrefFree h⟩

/-- C3, counterexample: at the boundary `now = staleAt` (entry stamped
`Stale-At: 100`, read at `now = 100`, well before expiry) the claim
demands one asynchronous regeneration attempt, but the code's strict
comparison `cached.staleAt < now` schedules none: the task list is
empty. -/
theorem C3_boundary_counterexample :
    readFromCache
        [("json-swr/u/r/m/a.md",
          { body := .md { attributes := "a", html := "h" },
            staleAtHeader := some "100", maxAge := STALE_FOR_SECONDS })]
        "json-swr/u/r/m/a.md" =
      some { data := .md { attributes := "a", html := "h" },
             staleAt := some 100 } ∧
    (100 : Nat) ≤ 100 ∧
    (100 : Nat) < expiresAt 0
      { body := .md { attributes := "a", html := "h" },
        staleAtHeader := some "100", maxAge := STALE_FOR_SECONDS } ∧
    (renderMarkdown { cacheControl := none, pragma := none } "/u/r/m/a.md"
        [("json-swr/u/r/m/a.md",
          { body := .md { attributes := "a", html := "h" },
            staleAtHeader := some "100", maxAge := STALE_FOR_SECONDS })]
        100 none).2 = [] := by
  refine ⟨by decide, by decide, by decide, by decide⟩

/-- C3, amended: a read without a cache-bypass directive on an existing
entry returns the old payload synchronously, and when `staleAt < now`
(strictly) it schedules exactly one asynchronous regeneration attempt;
at the boundary `now = staleAt` the entry is still treated as fresh and
no regeneration is scheduled.  Stated for both `renderMarkdown` and
`renderFiles`. -/
theorem C3_stale_read_one_regen (hdrs : ReqHeaders) (pathname : String)
    (kv : KvCache) (now s : Nat) (produce : Option ApiData)
    (pf : Option CachedFiles) (c cf : CachedRead)
    (hskip : shouldSkipCache hdrs = false) :
    (readFromCache kv ("json-swr" ++ pathname) = some c →
      c.staleAt = some s → s < now →
      renderMarkdown hdrs pathname kv now produce =
        (okResponse c.data, [.kvRegen ("json-swr" ++ pathname)])) ∧
    (readFromCache kv ("files" ++ pathname) = some cf →
      cf.staleAt = some s → s < now →
      renderFiles hdrs pathname kv now pf =
        (okResponse cf.data, [.kvRegen ("files" ++ pathname)])) ∧
    (readFromCache kv ("json-swr" ++ pathname) = some c →
      c.staleAt = some now →
      renderMarkdown hdrs pathname kv now produce = (okResponse c.data, [])) := by
  refine ⟨?_, ?_, ?_⟩
  · intro hread hs hlt
    unfold renderMarkdown
    simp only [hskip, Bool.false_eq_true, if_false, hread]
    simp [jsLt, hs, hlt]
  · intro hread hs hlt
    unfold renderFiles
    simp only [hskip, Bool.false_eq_true, if_false, hread]
    simp [jsLt, hs, hlt]
  · intro hread hs
    unfold renderMarkdown
    simp only [hskip, Bool.false_eq_true, if_false, hread]
    simp [jsLt, hs]

/-- Witness for C3: concrete stale read (`Stale-At: 100`, `now = 101`)
returning the old payload with exactly one regeneration task. -/
theorem C3_stale_read_one_regen_witness :
    renderMarkdown { cacheControl := none, pragma := none } "/u/r/m/a.md"
        [("json-swr/u/r/m/a.md",
          { body := .md { attributes := "a", html := "h" },
            staleAtHeader := some "100", maxAge := STALE_FOR_SECONDS })]
        101 none =
      (okResponse (.md { attributes := "a", html := "h" }),
       [.kvRegen "json-swr/u/r/m/a.md"]) :=
  (C3_stale_read_one_regen { cacheControl := none, pragma := none }
      "/u/r/m/a.md"
      [("json-swr/u/r/m/a.md",
        { body := .md { attributes := "a", html := "h" },
          staleAtHeader := some "100", maxAge := STALE_FOR_SECONDS })]
      101 100 none none
      { data := .md { attributes := "a", html := "h" }, staleAt := some 100 }
      { data := .md { attributes := "a", html := "h" }, staleAt := some 100 }
      (by decide)).1 (by decide) (by decide) (by decide)

/-- C4: when a background regeneration's producer fails (returns an
absent result), the `toCache && writeToCache(...)` continuation writes
nothing, so the worker state — in particular the stale cache entry — is
left completely unchanged; and the response of the triggering stale read
never depended on the regeneration's outcome in the first place (it is
the same for every producer result). -/
theorem C4_failed_regen_leaves_entry (key : String) (now : Nat) (st : WState)
    (hdrs : ReqHeaders) (pathname : String) (kv : KvCache) (now' : Nat)
    (c : CachedRead) (produce produce' : Option ApiData)
    (pf pf' : Option CachedFiles)
    (hskip : shouldSkipCache hdrs = false)
    (hread : readFromCache kv ("json-swr" ++ pathname) = some c) :
    runTask none now st (.kvRegen key) = st ∧
    readFromCache (runTask none now st (.kvRegen key)).kv key =
      readFromCache st.kv key ∧
    (renderMarkdown hdrs pathname kv now' produce).1 = okResponse c.data ∧
    renderMarkdown hdrs pathname kv now' produce =
      renderMarkdown hdrs pathname kv now' produce' ∧
    ((readFromCache kv ("files" ++ pathname)).isSome = true →
      renderFiles hdrs pathname kv now' pf =
        renderFiles hdrs pathname kv now' pf') := by
  refine ⟨rfl, rfl, ?_, ?_, ?_⟩
  · unfold renderMarkdown
    simp only [hskip, Bool.false_eq_true, if_false, hread]
  · unfold renderMarkdown
    simp only [hskip, Bool.false_eq_true, if_false, hread]
  · intro hfiles
    obtain ⟨cf, hcf⟩ := Option.isSome_iff_exists.mp hfiles
    unfold renderFiles
    simp only [hskip, Bool.false_eq_true, if_false, hcf]

/-- Witness for C4: a failed regeneration leaves a concrete one-entry
state untouched and the stale read's response equals the old payload,
whether the (unused) producer result is absent or present. -/
theorem C4_failed_regen_leaves_entry_witness :
    runTask none 7
        { edge := [],
          kv := [("json-swr/u/r/m/a.md",
            { body := .md { attributes := "a", html := "h" },
              staleAtHeader := some "100", maxAge := STALE_FOR_SECONDS })] }
        (.kvRegen "json-swr/u/r/m/a.md") =
      { edge := [],
        kv := [("json-swr/u/r/m/a.md",
          { body := .md { attributes := "a", html := "h" },
            staleAtHeader := some "100", maxAge := STALE_FOR_SECONDS })] } ∧
    (renderMarkdown { cacheControl := none, pragma := none } "/u/r/m/a.md"
        [("json-swr/u/r/m/a.md",
          { body := .md { attributes := "a", html := "h" },
            staleAtHeader := some "100", maxAge := STALE_FOR_SECONDS })]
        101 none).1 =
      okResponse (.md { attributes := "a", html := "h" }) :=
  ⟨(C4_failed_regen_leaves_entry "json-swr/u/r/m/a.md" 7
      { edge := [],
        kv := [("json-swr/u/r/m/a.md",
          { body := .md { attributes := "a", html := "h" },
            staleAtHeader := some "100", maxAge := STALE_FOR_SECONDS })] }
      { cacheControl := none, pragma := none } "/u/r/m/a.md"
      [("json-swr/u/r/m/a.md",
        { body := .md { attributes := "a", html := "h" },
          staleAtHeader := some "100", maxAge := STALE_FOR_SECONDS })]
      101
      { data := .md { attributes := "a", html := "h" }, staleAt := some 100 }
      none (some { attributes := "x", html := "y" }) none none
      (by decide) (by decide)).1,
   (C4_failed_regen_leaves_entry "json-swr/u/r/m/a.md" 7
      { edge := [],
        kv := [("json-swr/u/r/m/a.md",
          { body := .md { attributes := "a", html := "h" },
            staleAtHeader := some "100", maxAge := STALE_FOR_SECONDS })] }
      { cacheControl := none, pragma := none } "/u/r/m/a.md"
      [("json-swr/u/r/m/a.md",
        { body := .md { attributes := "a", html := "h" },
          staleAtHeader := some "100", maxAge := STALE_FOR_SECONDS })]
      101
      { data := .md { attributes := "a", html := "h" }, staleAt := some 100 }
      none (some { attributes := "x", html := "y" }) none none
      (by decide) (by decide)).2.2.1⟩

/-- C7: a read without a cache-bypass directive on an entry whose
staleness deadline lies strictly in the future returns the cached
payload with no background task, and its outcome is independent of the
producer's result — no upstream fetch is consulted. -/
theorem C7_fresh_read_no_fetch (hdrs : ReqHeaders) (pathname : String)
    (kv : KvCache) (now s : Nat) (produce : Option ApiData) (c : CachedRead)
    (hskip : shouldSkipCache hdrs = false)
    (hread : readFromCache kv ("json-swr" ++ pathname) = some c)
    (hs : c.staleAt = some s) (hlt : now < s) :
    renderMarkdown hdrs pathname kv now produce = (okResponse c.data, []) ∧
    ∀ produce', renderMarkdown hdrs pathname kv now produce =
      renderMarkdown hdrs pathname kv now produce' := by
  constructor
  · unfold renderMarkdown
    simp only [hskip, Bool.false_eq_true, if_false, hread]
    simp [jsLt, hs, Nat.not_lt_of_lt hlt]
  · intro produce'
    unfold renderMarkdown
    simp only [hskip, Bool.false_eq_true, if_false, hread]

/-- Witness for C7: fresh concrete read (`Stale-At: 100`, `now = 99`)
served from the cache with no tasks. -/
theorem C7_fresh_read_no_fetch_witness :
    renderMarkdown { cacheControl := none, pragma := none } "/u/r/m/a.md"
        [("json-swr/u/r/m/a.md",
          { body := .md { attributes := "a", html := "h" },
            staleAtHeader := some "100", maxAge := STALE_FOR_SECONDS })]
        99 none =
      (okResponse (.md { attributes := "a", html := "h" }), []) :=
  (C7_fresh_read_no_fetch { cacheControl := none, pragma := none }
      "/u/r/m/a.md"
      [("json-swr/u/r/m/a.md",
        { body := .md { attributes := "a", html := "h" },
          staleAtHeader := some "100", maxAge := STALE_FOR_SECONDS })]
      99 100 none
      { data := .md { attributes := "a", html := "h" }, staleAt := some 100 }
      (by decide) (by decide) (by decide) (by decide)).1

/-- C10: a stored entry whose `Stale-At` header is absent or empty is
read back with `staleAt = 0` (`Number(null || 0)` respectively
`Number("" || 0)`), so at any positive time the entry counts as
stale-but-present: the cached payload is still served and one background
regeneration is scheduled, rather than the read failing or the entry
being treated as absent. -/
theorem C10_missing_staleAt_header (hdrs : ReqHeaders) (pathname : String)
    (kv : KvCache) (now : Nat) (m : StoredResponse) (produce : Option ApiData)
    (hskip : shouldSkipCache hdrs = false)
    (hmatch : kvMatch kv ("json-swr" ++ pathname) = some m)
    (hhdr : m.staleAtHeader = none ∨ m.staleAtHeader = some "")
    (hnow : 0 < now) :
    readFromCache kv ("json-swr" ++ pathname) =
      some { data := m.body, staleAt := some 0 } ∧
    renderMarkdown hdrs pathname kv now produce =
      (okResponse m.body, [.kvRegen ("json-swr" ++ pathname)]) := by
  have hread : readFromCache kv ("json-swr" ++ pathname) =
      some { data := m.body, staleAt := some 0 } := by
    unfold readFromCache
    rw [hmatch]
    rcases hhdr with h | h <;> simp [h, jsNumberOfHeader]
  refine ⟨hread, ?_⟩
  unfold renderMarkdown
  simp only [hskip, Bool.false_eq_true, if_false, hread]
  simp [jsLt, hnow]

/-- Witness for C10: a concrete entry with no `Stale-At` header, read at
`now = 7`, is served and schedules one regeneration. -/
theorem C10_missing_staleAt_header_witness :
    renderMarkdown { cacheControl := none, pragma := none } "/u/r/m/a.md"
        [("json-swr/u/r/m/a.md",
          { body := .md { attributes := "a", html := "h" },
            staleAtHeader := none, maxAge := STALE_FOR_SECONDS })]
        7 none =
      (okResponse (.md { attributes := "a", html := "h" }),
       [.kvRegen "json-swr/u/r/m/a.md"]) :=
  (C10_missing_staleAt_header { cacheControl := none, pragma := none }
      "/u/r/m/a.md"
      [("json-swr/u/r/m/a.md",
        { body := .md { attributes := "a", html := "h" },
          staleAtHeader := none, maxAge := STALE_FOR_SECONDS })]
      7
      { body := .md { attributes := "a", html := "h" },
        staleAtHeader := none, maxAge := STALE_FOR_SECONDS }
      none (by decide) (by decide) (Or.inl rfl) (by decide)).2

/-- The decimal digit list of `n`, most significant first (the list
`Nat.toDigitsCore` produces with enough fuel). -/
def repDigits (n : Nat) : List Char :=
  if _h : n < 10 then [Nat.digitChar n]
  else repDigits (n / 10) ++ [Nat.digitChar (n % 10)]
termination_by n
decreasing_by exact Nat.div_lt_self (by omega) (by omega)

theorem toDigitsCore_eq_repDigits (f : Nat) :
    ∀ (n : Nat) (l : List Char), n < f →
      Nat.toDigitsCore 10 f n l = repDigits n ++ l := by
  induction f with
  | zero => intro n l h; exact absurd h (Nat.not_lt_zero n)
  | succ f ih =>
      intro n l _h
      rw [Nat.toDigitsCore]
      by_cases h0 : n / 10 = 0
      · have hn : n < 10 := by omega
        have hmod : n % 10 = n := Nat.mod_eq_of_lt hn
        simp only [h0, if_true, hmod]
        rw [repDigits, dif_pos hn]
        rfl
      · have hn : ¬ n < 10 := fun hc => h0 (Nat.div_eq_of_lt hc)
        simp only [h0, if_false]
        rw [ih (n / 10) _ (by omega)]
        conv_rhs => rw [repDigits, dif_neg hn]
        simp

theorem repDigits_foldl (n : Nat) : ∀ a : Nat,
    (repDigits n).foldl (fun m c => m * 10 + (c.toNat - 48)) a =
      a * 10 ^ (repDigits n).length + n := by
  induction n using Nat.strong_induction_on with
  | _ n ih =>
      intro a
      by_cases hn : n < 10
      · rw [repDigits, dif_pos hn]
        have hd : (Nat.digitChar n).toNat = 48 + n := by
          interval_cases n <;> rfl
        simp [List.foldl, hd]
      · rw [repDigits, dif_neg hn]
        rw [List.foldl_append]
        rw [ih (n / 10) (Nat.div_lt_self (by omega) (by omega)) a]
        have hm : n % 10 < 10 := Nat.mod_lt _ (by omega)
        have hd : (Nat.digitChar (n % 10)).toNat = 48 + n % 10 := by
          obtain ⟨m, hme, hmlt⟩ : ∃ m, n % 10 = m ∧ m < 10 := ⟨n % 10, rfl, hm⟩
          rw [hme]
          interval_cases m <;> rfl
        simp only [List.foldl_cons, List.foldl_nil, hd, List.length_append,
          List.length_singleton]
        have hsplit : n / 10 * 10 + n % 10 = n := by omega
        calc (a * 10 ^ (repDigits (n / 10)).length + n / 10) * 10 +
              (48 + n % 10 - 48)
            = a * (10 ^ (repDigits (n / 10)).length * 10) +
                (n / 10 * 10 + n % 10) := by ring_nf; omega
          _ = a * 10 ^ ((repDigits (n / 10)).length + 1) + n := by
              rw [hsplit, pow_succ]

theorem repDigits_all_isDigit (n : Nat) :
    (repDigits n).all Char.isDigit = true := by
  induction n using Nat.strong_induction_on with
  | _ n ih =>
      by_cases hn : n < 10
      · rw [repDigits, dif_pos hn]
        interval_cases n <;> rfl
      · rw [repDigits, dif_neg hn]
        rw [List.all_append]
        rw [ih (n / 10) (Nat.div_lt_self (by omega) (by omega))]
        have hm : n % 10 < 10 := Nat.mod_lt _ (by omega)
        obtain ⟨m, hme, hmlt⟩ : ∃ m, n % 10 = m ∧ m < 10 := ⟨n % 10, rfl, hm⟩
        rw [hme]
        interval_cases m <;> rfl

theorem repDigits_ne_nil (n : Nat) : repDigits n ≠ [] := by
  rw [repDigits]
  by_cases hn : n < 10
  · rw [dif_pos hn]; simp
  · rw [dif_neg hn]; simp

theorem repr_data (n : Nat) : (Nat.repr n).data = repDigits n := by
  show (List.asString (Nat.toDigits 10 n)).data = repDigits n
  rw [Nat.toDigits, toDigitsCore_eq_repDigits (n + 1) n [] (Nat.lt_succ_self n)]
  simp [List.asString]

theorem repr_ne_empty (n : Nat) : Nat.repr n ≠ "" := by
  intro h
  have := repr_data n
  rw [h] at this
  exact repDigits_ne_nil n this.symm

/-- `Number((k).toFixed(0))` recovers `k`: parsing back the decimal
string that `Nat.repr` produces yields the number itself. -/
theorem jsToNat?_repr (n : Nat) : jsToNat? (Nat.repr n) = some n := by
  unfold jsToNat?
  rw [repr_data n]
  have hcond : repDigits n ≠ [] ∧ (repDigits n).all Char.isDigit = true :=
    ⟨repDigits_ne_nil n, repDigits_all_isDigit n⟩
  rw [if_pos hcond, repDigits_foldl n 0]
  simp

/-- C5: every cache write stamps the entry with
`Stale-At = now + REVALIDATE_AFTER_MS` (5 minutes, read back as exactly
that number) and `max-age = STALE_FOR_SECONDS`, so the entry expires at
`now + 1000 * STALE_FOR_SECONDS` (2 days) and the staleness deadline
strictly precedes the eviction deadline. -/
theorem C5_staleAt_lt_expiresAt (now : Nat) (v : KvValue) :
    (writeToCache now v).staleAtHeader =
      some (Nat.repr (now + REVALIDATE_AFTER_MS)) ∧
    storedStaleAt (writeToCache now v) = some (now + REVALIDATE_AFTER_MS) ∧
    expiresAt now (writeToCache now v) = now + 1000 * STALE_FOR_SECONDS ∧
    REVALIDATE_AFTER_MS = 5 * 60 * 1000 ∧
    1000 * STALE_FOR_SECONDS = 2 * 24 * 60 * 60 * 1000 ∧
    now + REVALIDATE_AFTER_MS < expiresAt now (writeToCache now v) := by
  refine ⟨rfl, ?_, rfl, rfl, by decide, ?_⟩
  · show jsNumberOfHeader (some (Nat.repr (now + REVALIDATE_AFTER_MS))) = _
    simp only [jsNumberOfHeader]
    rw [if_neg (repr_ne_empty _), jsToNat?_repr]
  · show now + REVALIDATE_AFTER_MS < now + 1000 * STALE_FOR_SECONDS
    have : REVALIDATE_AFTER_MS < 1000 * STALE_FOR_SECONDS := by decide
    omega

/-- C6: a request whose `Cache-Control` or `Pragma` header contains
`no-cache` bypasses both the edge response cache and the key-value SWR
cache entirely — whatever the current state holds, even a fresh entry —
produces the result synchronously from the upstream fetch, and on
success still schedules a write of the fresh result back to the cache
(on failure it returns 404 and writes nothing to the SWR cache). -/
theorem C6_no_cache_bypasses_cache :
    shouldSkipCache { cacheControl := some "no-cache", pragma := none } = true ∧
    shouldSkipCache { cacheControl := none, pragma := some "no-cache" } = true ∧
    ∀ (hdrs : ReqHeaders) (pathname : String) (st : WState) (now : Nat)
      (produceMd : Option ApiData) (produceFiles : Option CachedFiles),
      shouldSkipCache hdrs = true →
      (((pathSegments pathname).length ≠ 3 →
        handleFetch hdrs pathname st now produceMd produceFiles =
          (match produceMd with
           | some d =>
              (okResponse (.md d),
               [.kvWrite ("json-swr" ++ pathname) (.md d),
                .edgePut pathname (okResponse (.md d))])
           | none => (notFoundResponse, [.edgePut pathname notFoundResponse]))) ∧
      ((pathSegments pathname).length = 3 →
        handleFetch hdrs pathname st now produceMd produceFiles =
          (match produceFiles with
           | some f =>
              (okResponse (.files f),
               [.kvWrite ("files" ++ pathname) (.files f),
                .edgePut pathname (okResponse (.files f))])
           | none => (notFoundResponse, [.edgePut pathname notFoundResponse])))) := by
  refine ⟨by decide, by decide, ?_⟩
  intro hdrs pathname st now pm pf hskip
  constructor
  · intro hroute
    unfold handleFetch
    simp only [hskip, if_true]
    rw [if_neg hroute]
    unfold renderMarkdown
    simp only [hskip, if_true]
    cases pm <;> rfl
  · intro hroute
    unfold handleFetch
    simp only [hskip, if_true]
    rw [if_pos hroute]
    unfold renderFiles
    simp only [hskip, if_true]
    cases pf <;> rfl

/-- Witness for C6: with `Cache-Control: no-cache`, a request whose URL
has a fresh entry in both the edge cache and the SWR cache (stale only at
`999999`, read at `now = 5`) is nevertheless served the freshly produced
document, with a write-back of that document scheduled. -/
theorem C6_no_cache_bypasses_cache_witness :
    handleFetch { cacheControl := some "no-cache", pragma := none }
        "/u/r/m/a.md"
        { edge := [("/u/r/m/a.md",
            okResponse (.md { attributes := "c", html := "ch" }))],
          kv := [("json-swr/u/r/m/a.md",
            { body := .md { attributes := "c", html := "ch" },
              staleAtHeader := some "999999",
              maxAge := STALE_FOR_SECONDS })] }
        5 (some { attributes := "a", html := "h" }) none =
      (okResponse (.md { attributes := "a", html := "h" }),
       [.kvWrite "json-swr/u/r/m/a.md" (.md { attributes := "a", html := "h" }),
        .edgePut "/u/r/m/a.md"
          (okResponse (.md { attributes := "a", html := "h" }))]) :=
  ((C6_no_cache_bypasses_cache.2.2
      { cacheControl := some "no-cache", pragma := none } "/u/r/m/a.md"
      { edge := [("/u/r/m/a.md",
          okResponse (.md { attributes := "c", html := "ch" }))],
        kv := [("json-swr/u/r/m/a.md",
          { body := .md { attributes := "c", html := "ch" },
            staleAtHeader := some "999999",
            maxAge := STALE_FOR_SECONDS })] }
      5 (some { attributes := "a", html := "h" }) none
      (by decide)).1 (by decide))

theorem filesOfTree_go (tree : List TreeItem) : ∀ acc : List CachedFile,
    tree.foldl
      (fun acc item =>
        if item.type = "blob" && strEndsWith (jsToLower item.path) ".md" then
          acc ++ [{ path := item.path, sha := item.sha }]
        else acc)
      acc =
    acc ++ (tree.filter (fun i =>
      i.type = "blob" && strEndsWith (jsToLower i.path) ".md")).map
        (fun i => { path := i.path, sha := i.sha }) := by
  induction tree with
  | nil => intro acc; simp
  | cons x xs ih =>
      intro acc
      rw [List.foldl_cons, List.filter_cons]
      by_cases hx : (x.type = "blob" && strEndsWith (jsToLower x.path) ".md") = true
      · rw [if_pos hx, if_pos hx, ih]
        simp
      · rw [if_neg hx, if_neg hx, ih]

/-- C8: the file-listing producer keeps exactly the tree entries of type
`blob` whose path ends in `.md` after lower-casing, maps each to
`{path, sha}` preserving upstream order; on the concrete example tree
only `README.md` and `README.MD` survive (`.markdown` and `.ts` are
excluded, and a `tree`-typed `.md` path is excluded as well); a
successful tree fetch yields the commit sha with the filtered files and
a failed one yields nothing. -/
theorem C8_files_filter :
    (∀ tree : List TreeItem,
      filesOfTree tree =
        (tree.filter (fun i =>
          i.type = "blob" && strEndsWith (jsToLower i.path) ".md")).map
            (fun i => { path := i.path, sha := i.sha })) ∧
    filesOfTree
        [{ path := "README.md", type := "blob", sha := "s1" },
         { path := "README.MD", type := "blob", sha := "s2" },
         { path := "src/index.ts", type := "blob", sha := "s3" },
         { path := "docs/a.markdown", type := "blob", sha := "s4" },
         { path := "dir.md", type := "tree", sha := "s5" }] =
      [{ path := "README.md", sha := "s1" },
       { path := "README.MD", sha := "s2" }] ∧
    (∀ resp : TreeResponse,
      createNewFilesCacheEntry (some resp) =
        some { sha := resp.sha, files := filesOfTree resp.tree }) ∧
    createNewFilesCacheEntry none = none := by
  refine ⟨?_, by decide, fun resp => rfl, rfl⟩
  intro tree
  exact filesOfTree_go tree []

/-- C2, counterexample: for a request (no bypass directive, empty caches)
whose upstream fetch fails, the handler does return the 404 JSON body
`{"error":"Not found"}` and writes nothing to the key-value SWR cache —
but `handleFetch` unconditionally schedules
`caches.default.put(request.url, response.clone())`, so after the
background tasks run an entry for the request URL holds the 404
response, and a subsequent plain request for the same URL is served that
cached 404 straight from the edge cache (here even though its upstream
fetch would now succeed).  A cache entry observable on a subsequent
request is left behind, contradicting the claim. -/
theorem C2_cached_404_counterexample :
    (handleFetch { cacheControl := none, pragma := none } "/u/r/m/a.md"
        { edge := [], kv := [] } 5 none none).1 = notFoundResponse ∧
    (runTasks none 5 { edge := [], kv := [] }
        (handleFetch { cacheControl := none, pragma := none } "/u/r/m/a.md"
          { edge := [], kv := [] } 5 none none).2).kv = [] ∧
    edgeMatch
        (runTasks none 5 { edge := [], kv := [] }
          (handleFetch { cacheControl := none, pragma := none } "/u/r/m/a.md"
            { edge := [], kv := [] } 5 none none).2).edge
        "/u/r/m/a.md" = some notFoundResponse ∧
    (handleFetch { cacheControl := none, pragma := none } "/u/r/m/a.md"
        (runTasks none 5 { edge := [], kv := [] }
          (handleFetch { cacheControl := none, pragma := none } "/u/r/m/a.md"
            { edge := [], kv := [] } 5 none none).2)
        60000 (some { attributes := "a", html := "h" }) none).1 =
      notFoundResponse := by
  refine ⟨by decide, by decide, by decide, by decide⟩

/-- C2, amended: a request without a bypass directive, not served from
the edge cache, whose SWR cache has no entry and whose upstream fetch
fails, is answered 404 with body `{"error":"Not found"}`; no write to
the key-value SWR cache is scheduled (the SWR cache is unchanged after
the tasks run) — but the 404 response itself is scheduled for an edge
cache put under the request URL, where a subsequent request will find
it. -/
theorem C2_failed_fetch_not_cached_in_swr (hdrs : ReqHeaders)
    (pathname : String) (st : WState) (now now' : Nat)
    (pf : Option CachedFiles) (r : Option KvValue)
    (hskip : shouldSkipCache hdrs = false)
    (hedge : edgeMatch st.edge pathname = none)
    (hroute : (pathSegments pathname).length ≠ 3)
    (hread : readFromCache st.kv ("json-swr" ++ pathname) = none) :
    handleFetch hdrs pathname st now none pf =
      (notFoundResponse, [.edgePut pathname notFoundResponse]) ∧
    (runTasks r now' st [.edgePut pathname notFoundResponse]).kv = st.kv ∧
    edgeMatch (runTasks r now' st [.edgePut pathname notFoundResponse]).edge
        pathname = some notFoundResponse := by
  refine ⟨?_, rfl, ?_⟩
  · unfold handleFetch
    simp only [hskip, Bool.false_eq_true, if_false, hedge]
    rw [if_neg hroute]
    unfold renderMarkdown
    simp only [hskip, Bool.false_eq_true, if_false, hread]
    simp
  · show edgeMatch ((pathname, notFoundResponse) :: st.edge) pathname = _
    unfold edgeMatch
    simp [List.find?]

/-- Witness for C2's amended statement: the concrete empty-state scenario. -/
theorem C2_failed_fetch_not_cached_in_swr_witness :
    handleFetch { cacheControl := none, pragma := none } "/u/r/m/a.md"
        { edge := [], kv := [] } 5 none none =
      (notFoundResponse, [.edgePut "/u/r/m/a.md" notFoundResponse]) ∧
    (runTasks none 5 { edge := [], kv := [] }
        [.edgePut "/u/r/m/a.md" notFoundResponse]).kv = [] ∧
    edgeMatch
        (runTasks none 5 { edge := [], kv := [] }
          [.edgePut "/u/r/m/a.md" notFoundResponse]).edge
        "/u/r/m/a.md" = some notFoundResponse :=
  C2_failed_fetch_not_cached_in_swr
    { cacheControl := none, pragma := none } "/u/r/m/a.md"
    { edge := [], kv := [] } 5 5 none none
    (by decide) (by decide) (by decide) (by decide)
